import Mathlib

/-!
Shallow embedding of the dpbadi badminton club-management cost engine:
the model layer (src/models.py: Player, Session, Court, Attendance,
Payment, DropoutRefund) and the attendance / dropout-refund endpoints of
src/app.py (update_player_attendance, update_attendance,
update_dropout_refund).

Money is modelled as exact rationals.  Python's builtin round (round half
to even) is modelled by pyRound / round2.  Database tables are modelled
as lists of rows; SQLAlchemy query.first() followed by a mutation is
modelled by updating the first matching element of the list, and
query.filter(...).delete-style removal by removing the first matching
element.  Fields that no claim touches (names, phone numbers, timestamps,
audit columns, court names and times) are omitted from the row types.
-/

/-- Python's builtin round to an integer: nearest integer, ties to even. -/
def pyRound (x : ℚ) : ℤ :=
  let f : ℤ := ⌊x⌋
  if x - f < 1/2 then f
  else if x - f > 1/2 then f + 1
  else if f % 2 = 0 then f else f + 1

/-- Python's round(x, 2): round to 2 decimal places. -/
def round2 (x : ℚ) : ℚ := (pyRound (100 * x) : ℚ) / 100

/-- A court row (models.py Court).  Only the cost participates in the cost
engine; name, times and court_type (used for reporting splits only) are
omitted. -/
structure Court where
  cost : ℚ
deriving DecidableEq

/-- A session row (models.py Session) together with its courts
(relationship Session.courts).  is_archived and the audit columns are not
read by any claimed computation and are omitted. -/
structure Session where
  id : Nat
  birdie_cost : ℚ
  voting_frozen : Bool
  courts : List Court
deriving DecidableEq

/-- An attendance row (models.py Attendance): status is one of
YES, NO, TENTATIVE, DROPOUT, FILLIN; category is the per-session category
snapshot (regular, adhoc, kid). -/
structure Attendance where
  player_id : Nat
  session_id : Nat
  status : String
  category : String
deriving DecidableEq

/-- A payment row (models.py Payment). -/
structure Payment where
  player_id : Nat
  amount : ℚ
  method : String
  notes : String
deriving DecidableEq

/-- A player row (models.py Player); only id and the base category are
read by the embedded endpoints. -/
structure Player where
  id : Nat
  category : String
deriving DecidableEq

/-- A dropout-refund row (models.py DropoutRefund).  processed_date_set
records whether the processed_date timestamp column is non-null. -/
structure DropoutRefund where
  player_id : Nat
  session_id : Nat
  refund_amount : ℚ
  instructions : String
  status : String
  processed_date_set : Bool
deriving DecidableEq

/-- Session.query.get(session_id): first session with the given id. -/
def findSession (sessions : List Session) (session_id : Nat) : Option Session :=
  sessions.find? (fun s => s.id == session_id)

namespace Session

/-- The relationship Session.attendances: attendance rows of this session. -/
def attendances (s : Session) (atts : List Attendance) : List Attendance :=
  atts.filter (fun a => a.session_id == s.id)

/-- models.py Session.get_attendee_count:
self.attendances.filter_by(status='YES').count() -/
def get_attendee_count (s : Session) (atts : List Attendance) : Nat :=
  ((s.attendances atts).filter (fun a => a.status == "YES")).length

/-- models.py Session.get_dropout_count. -/
def get_dropout_count (s : Session) (atts : List Attendance) : Nat :=
  ((s.attendances atts).filter (fun a => a.status == "DROPOUT")).length

/-- models.py Session.get_fillin_count. -/
def get_fillin_count (s : Session) (atts : List Attendance) : Nat :=
  ((s.attendances atts).filter (fun a => a.status == "FILLIN")).length

/-- models.py Session.get_total_cost:
sum(court.cost for court in self.courts.all()) -/
def get_total_cost (s : Session) : ℚ :=
  (s.courts.map Court.cost).sum

/-- models.py Session.get_cost_per_player. -/
def get_cost_per_player (s : Session) (atts : List Attendance) : ℚ :=
  let attendee_count := s.get_attendee_count atts
  if attendee_count = 0 then 0
  else round2 (s.get_total_cost / attendee_count + s.birdie_cost)

/-- models.py Session.calculate_suggested_refund. -/
def calculate_suggested_refund (s : Session) (atts : List Attendance) : ℚ :=
  let fillin_count := s.get_fillin_count atts
  let dropout_count := s.get_dropout_count atts
  if fillin_count ≥ dropout_count ∧ fillin_count > 0 then
    s.get_cost_per_player atts
  else
    let attendee_count := s.get_attendee_count atts
    if attendee_count > 0 then round2 (s.get_total_cost / attendee_count)
    else 0

/-- models.py Session.get_total_collection: for each YES attendance add a
flat 11 for kids, else the (rounded) cost per player; round the total. -/
def get_total_collection (s : Session) (atts : List Attendance) : ℚ :=
  round2 (((s.attendances atts).filter (fun a => a.status == "YES")).foldl
    (fun total a =>
      if a.category == "kid" then total + 11
      else total + s.get_cost_per_player atts) 0)

end Session

namespace Player

/-- models.py Player.get_total_charges: iterate over the player's YES
attendances; kids add a flat 11; otherwise add the UNROUNDED
total_cost / attendee_count + birdie_cost (nothing when the session has
no YES attendee); round the accumulated total once at the end.
The none branch of the session lookup is unreachable in the source
(session_id is a non-null foreign key). -/
def get_total_charges (sessions : List Session) (atts : List Attendance)
    (player_id : Nat) : ℚ :=
  round2 ((atts.filter (fun a => a.player_id == player_id && a.status == "YES")).foldl
    (fun total a =>
      if a.category == "kid" then total + 11
      else
        match findSession sessions a.session_id with
        | none => total
        | some s =>
          let attendee_count := s.get_attendee_count atts
          if attendee_count > 0 then
            total + (s.get_total_cost / attendee_count + s.birdie_cost)
          else total) 0)

/-- models.py Player.get_total_payments:
round(sum(p.amount for p in self.payments.all()), 2) -/
def get_total_payments (pays : List Payment) (player_id : Nat) : ℚ :=
  round2 (((pays.filter (fun p => p.player_id == player_id)).map Payment.amount).sum)

/-- models.py Player.get_balance. -/
def get_balance (sessions : List Session) (atts : List Attendance)
    (pays : List Payment) (player_id : Nat) : ℚ :=
  round2 (get_total_charges sessions atts player_id - get_total_payments pays player_id)

end Player

/-- The per-attendance charge exactly as claim C1 words it: a flat 11 for
a kid attendance, otherwise the 2-decimal-rounded cost_per_player of the
session (0 for an absent session or one with no YES attendee). -/
def specChargeC1 (sessions : List Session) (atts : List Attendance)
    (a : Attendance) : ℚ :=
  if a.category == "kid" then 11
  else
    match findSession sessions a.session_id with
    | none => 0
    | some s => s.get_cost_per_player atts

/-- total_charges as claim C1 words it: the sum over the player's YES
attendances of the rounded per-session charge. -/
def spec_total_charges (sessions : List Session) (atts : List Attendance)
    (player_id : Nat) : ℚ :=
  ((atts.filter (fun a => a.player_id == player_id && a.status == "YES")).map
    (specChargeC1 sessions atts)).sum

/-- The unrounded per-attendance charge actually accumulated by
Player.get_total_charges: 11 for a kid, else
total_cost / attendee_count + birdie_cost (0 when the session is absent
or has no YES attendee). -/
def rawCharge (sessions : List Session) (atts : List Attendance)
    (a : Attendance) : ℚ :=
  if a.category == "kid" then 11
  else
    match findSession sessions a.session_id with
    | none => 0
    | some s =>
      let attendee_count := s.get_attendee_count atts
      if attendee_count > 0 then s.get_total_cost / attendee_count + s.birdie_cost
      else 0

/-- Replace the first element satisfying p by f of it: models mutating the
row returned by query.filter_by(...).first(). -/
def updateFirstBy {α : Type} (p : α → Bool) (f : α → α) : List α → List α
  | [] => []
  | a :: l => if p a then f a :: l else a :: updateFirstBy p f l

/-- Remove the first element satisfying p: models db.session.delete of the
row returned by query.filter_by(...).first(). -/
def removeFirstBy {α : Type} (p : α → Bool) : List α → List α
  | [] => []
  | a :: l => if p a then l else a :: removeFirstBy p l

/-- The (player_id, session_id) match used by the attendance upsert. -/
def pairMatches (player_id session_id : Nat) (a : Attendance) : Bool :=
  a.player_id == player_id && a.session_id == session_id

/-- Number of attendance rows for one (player_id, session_id) pair. -/
def countPair (atts : List Attendance) (player_id session_id : Nat) : Nat :=
  atts.countP (pairMatches player_id session_id)

/-- The uniqueness invariant of models.py Attendance.__table_args__:
at most one attendance row per (player_id, session_id). -/
def attUnique (atts : List Attendance) : Prop :=
  ∀ player_id session_id, countPair atts player_id session_id ≤ 1

/-- The attendance upsert shared by both endpoints in src/app.py:
look up the row by (player_id, session_id); if found, set its status,
otherwise insert a new row with the given category. -/
def upsert (atts : List Attendance) (player_id session_id : Nat)
    (status category : String) : List Attendance :=
  if atts.any (pairMatches player_id session_id) then
    updateFirstBy (pairMatches player_id session_id)
      (fun a => { a with status := status }) atts
  else
    atts ++ [{ player_id := player_id, session_id := session_id,
               status := status, category := category }]

/-- The JSON response of the attendance endpoints. -/
inductive ApiResult where
  | error (msg : String) (code : Nat)
  | ok (attendee_count : Nat) (cost_per_player : ℚ)
deriving DecidableEq

/-- app.py update_player_attendance (self-service endpoint, /api/player/attendance).
Returned pair: the attendance table after the call and the response.
In the source a session_id with no session raises at the response step;
that unreachable-in-practice path is modelled as a 500 error. -/
def update_player_attendance (sessions : List Session) (atts : List Attendance)
    (current_player_id : Nat) (managed : List Nat) (session_id : Nat)
    (status : String) (target_player_id : Nat) : List Attendance × ApiResult :=
  let frozen :=
    match findSession sessions session_id with
    | some s => s.voting_frozen
    | none => false
  if frozen then
    (atts, .error "Voting is frozen for this session" 403)
  else if status ∉ (["YES", "NO", "TENTATIVE"] : List String) then
    (atts, .error "Invalid status" 400)
  else if target_player_id ≠ current_player_id ∧ target_player_id ∉ managed then
    (atts, .error "You can only vote for yourself or your managed players" 403)
  else
    let atts2 := upsert atts target_player_id session_id status "regular"
    match findSession sessions session_id with
    | some s => (atts2, .ok (s.get_attendee_count atts2) (s.get_cost_per_player atts2))
    | none => (atts2, .error "session not found" 500)

/-- player.category if player else 'regular' (app.py update_attendance). -/
def categoryOf (players : List Player) (player_id : Nat) : String :=
  match players.find? (fun p => p.id == player_id) with
  | some p => p.category
  | none => "regular"

/-- app.py update_attendance (admin endpoint, /api/attendance). -/
def update_attendance (sessions : List Session) (players : List Player)
    (atts : List Attendance) (player_id session_id : Nat) (status : String) :
    List Attendance × ApiResult :=
  if status ∉ (["YES", "NO", "TENTATIVE", "DROPOUT", "FILLIN"] : List String) then
    (atts, .error "Invalid status" 400)
  else
    let atts2 := upsert atts player_id session_id status (categoryOf players player_id)
    match findSession sessions session_id with
    | some s => (atts2, .ok (s.get_attendee_count atts2) (s.get_cost_per_player atts2))
    | none => (atts2, .error "session not found" 500)

/-- Set the voting_frozen flag of the session with the given id. -/
def setFrozen (sessions : List Session) (session_id : Nat) (b : Bool) :
    List Session :=
  sessions.map (fun s => if s.id == session_id then { s with voting_frozen := b } else s)

/-- Python str.strip() on a character list (whitespace from both ends). -/
def stripChars (l : List Char) : List Char :=
  ((l.dropWhile Char.isWhitespace).reverse.dropWhile Char.isWhitespace).reverse

/-- Python str.strip(). -/
def pyStrip (s : String) : String := String.mk (stripChars s.data)

/-- needle occurs as a contiguous substring of hay (character lists). -/
def listContainsSub (needle : List Char) : List Char → Bool
  | [] => needle.isEmpty
  | c :: t => needle.isPrefixOf (c :: t) || listContainsSub needle t

/-- SQL LIKE with a wildcard on both ends: substring containment. -/
def strContainsSub (hay needle : String) : Bool :=
  listContainsSub needle.data hay.data

/-- The fixed part of the notes written on refund payments,
'Dropout refund for session ' followed by the session date string. -/
def noteMarker (dateStr : String) : String :=
  "Dropout refund for session " ++ dateStr

/-- The notes text written on refund payments:
f-string 'Dropout refund for session {date}. {instructions or ""}'
followed by .strip(). -/
def mkNote (dateStr instructions : String) : String :=
  pyStrip (noteMarker dateStr ++ ". " ++ instructions)

/-- The payment lookup used by the update and cancel branches of app.py
update_dropout_refund: filter_by(player_id, method='Refund') and
notes LIKE '%Dropout refund for session {date}%'. -/
def isRefundPaymentFor (player_id : Nat) (dateStr : String) (p : Payment) : Bool :=
  p.player_id == player_id && p.method == "Refund"
    && strContainsSub p.notes (noteMarker dateStr)

/-- The form action of the /refunds/id/update endpoint. -/
inductive RefundAction where
  | update (amount : Option ℚ) (instructions : String)
  | process
  | cancel

/-- Result of one call to update_dropout_refund: the refund row, the
payment table, and whether a could-not-find-payment warning was flashed. -/
structure RefundUpdateResult where
  refund : DropoutRefund
  payments : List Payment
  warning : Bool
deriving DecidableEq

/-- The negative payment created by the process branch. -/
def mkRefundPayment (r : DropoutRefund) (dateStr : String) : Payment :=
  { player_id := r.player_id, amount := -r.refund_amount, method := "Refund",
    notes := mkNote dateStr r.instructions }

/-- app.py update_dropout_refund (POST /refunds/id/update).  dateStr is
refund.session.date.strftime('%b %d, %Y').  The update branch stores the
(stripped) form instructions and the new amount, and when the refund is
already processed rewrites the first matching payment in place (warning
when none matches).  The process branch unconditionally sets status
processed, sets the processed timestamp and appends one negative payment.
The cancel branch removes the first matching payment when the refund was
processed (warning when none matches) and sets status cancelled. -/
def update_dropout_refund (r : DropoutRefund) (dateStr : String)
    (pays : List Payment) (action : RefundAction) : RefundUpdateResult :=
  match action with
  | .update amount instructions =>
    let new_amount := amount.getD r.refund_amount
    let instr := pyStrip instructions
    let r2 := { r with refund_amount := new_amount, instructions := instr }
    if r.status = "processed" then
      if pays.any (isRefundPaymentFor r.player_id dateStr) then
        { refund := r2,
          payments := updateFirstBy (isRefundPaymentFor r.player_id dateStr)
            (fun p => { p with amount := -new_amount,
                               notes := mkNote dateStr instr }) pays,
          warning := false }
      else
        { refund := r2, payments := pays, warning := true }
    else
      { refund := r2, payments := pays, warning := false }
  | .process =>
    { refund := { r with status := "processed", processed_date_set := true },
      payments := pays ++ [mkRefundPayment r dateStr],
      warning := false }
  | .cancel =>
    if r.status = "processed" then
      if pays.any (isRefundPaymentFor r.player_id dateStr) then
        { refund := { r with status := "cancelled" },
          payments := removeFirstBy (isRefundPaymentFor r.player_id dateStr) pays,
          warning := false }
      else
        { refund := { r with status := "cancelled" }, payments := pays,
          warning := true }
    else
      { refund := { r with status := "cancelled" }, payments := pays,
        warning := false }

/-- Two sessions, one court of cost 10 each, birdie cost 0. -/
def c1Sessions : List Session :=
  [{ id := 1, birdie_cost := 0, voting_frozen := false, courts := [{ cost := 10 }] },
   { id := 2, birdie_cost := 0, voting_frozen := false, courts := [{ cost := 10 }] }]

/-- Players 1, 2, 3 attend both sessions of c1Sessions. -/
def c1Atts : List Attendance :=
  [{ player_id := 1, session_id := 1, status := "YES", category := "regular" },
   { player_id := 2, session_id := 1, status := "YES", category := "regular" },
   { player_id := 3, session_id := 1, status := "YES", category := "regular" },
   { player_id := 1, session_id := 2, status := "YES", category := "regular" },
   { player_id := 2, session_id := 2, status := "YES", category := "regular" },
   { player_id := 3, session_id := 2, status := "YES", category := "regular" }]

/-- The scenario of claim C6: courts of 50 and 40, birdie cost 2. -/
def c6Session : Session :=
  { id := 1, birdie_cost := 2, voting_frozen := false,
    courts := [{ cost := 50 }, { cost := 40 }] }

/-- Six regular players and one kid attend c6Session. -/
def c6Atts : List Attendance :=
  [{ player_id := 1, session_id := 1, status := "YES", category := "regular" },
   { player_id := 2, session_id := 1, status := "YES", category := "regular" },
   { player_id := 3, session_id := 1, status := "YES", category := "regular" },
   { player_id := 4, session_id := 1, status := "YES", category := "regular" },
   { player_id := 5, session_id := 1, status := "YES", category := "regular" },
   { player_id := 6, session_id := 1, status := "YES", category := "regular" },
   { player_id := 7, session_id := 1, status := "YES", category := "kid" }]

/-- A cancelled refund row used by the C4 counterexample. -/
def c4Refund : DropoutRefund :=
  { player_id := 1, session_id := 1, refund_amount := 5, instructions := "",
    status := "cancelled", processed_date_set := false }


/-- A session with no courts, birdie cost 2 (witness input). -/
def wSessionNoCourts : Session := ⟨3, 2, false, []⟩

/-- A session with one court of cost 30, birdie cost 2 (witness input). -/
def wSessionOneCourt : Session := ⟨4, 2, false, [⟨30⟩]⟩

/-- One YES attendance for wSessionNoCourts. -/
def wAtts3 : List Attendance := [⟨1, 3, "YES", "regular"⟩]

/-- One YES attendance for wSessionOneCourt. -/
def wAtts4 : List Attendance := [⟨1, 4, "YES", "regular"⟩]

/-- A session with one court of cost 10, birdie cost 1 (refund witness). -/
def wSessionR : Session := ⟨5, 1, false, [⟨10⟩]⟩

/-- Two fill-ins, one dropout, one YES attendee: full-refund branch. -/
def wAttsFull : List Attendance :=
  [⟨1, 5, "FILLIN", "regular"⟩, ⟨2, 5, "FILLIN", "regular"⟩,
   ⟨3, 5, "DROPOUT", "regular"⟩, ⟨4, 5, "YES", "regular"⟩]

/-- No fill-ins, one dropout, two YES attendees: partial-refund branch. -/
def wAttsPart : List Attendance :=
  [⟨3, 5, "DROPOUT", "regular"⟩, ⟨4, 5, "YES", "regular"⟩,
   ⟨5, 5, "YES", "regular"⟩]

/-- One dropout, no YES attendees: zero-attendee partial-refund branch. -/
def wAttsEmpty : List Attendance := [⟨3, 5, "DROPOUT", "regular"⟩]

/-- A pending refund of 7 for player 2 (witness input). -/
def wRefundPending : DropoutRefund := ⟨2, 9, 7, "", "pending", false⟩

/-- A processed refund of 7 for player 2 (witness input). -/
def wRefundProcessed : DropoutRefund := ⟨2, 9, 7, "", "processed", true⟩

/-- A session date string for the refund witnesses. -/
def wDate : String := "Feb 02, 2025"

/-- One refund payment whose notes carry the wDate marker. -/
def wPays : List Payment :=
  [⟨2, -7, "Refund", "Dropout refund for session Feb 02, 2025."⟩]

/-- An unfrozen session with id 2 (endpoint witness input). -/
def wSession8 : Session := ⟨2, 1, false, [⟨10⟩]⟩

/-- A frozen session with id 2 (endpoint witness input). -/
def wSession9 : Session := ⟨2, 1, true, [⟨10⟩]⟩

/-! ## Helper lemmas -/

theorem pyRound_of_lt (x : ℚ) (n : ℤ) (h1 : (n : ℚ) ≤ x) (h2 : x - n < 1/2) :
    pyRound x = n := by
  have hf : (⌊x⌋ : ℤ) = n := Int.floor_eq_iff.mpr ⟨h1, by linarith⟩
  simp only [pyRound, hf]
  rw [if_pos h2]

theorem pyRound_of_gt (x : ℚ) (n : ℤ) (h1 : x - n > 1/2) (h2 : x < (n : ℚ) + 1) :
    pyRound x = n + 1 := by
  have h0 : (n : ℚ) ≤ x := by linarith
  have hf : (⌊x⌋ : ℤ) = n := Int.floor_eq_iff.mpr ⟨h0, by linarith⟩
  simp only [pyRound, hf]
  rw [if_neg (by linarith), if_pos h1]

theorem round2_of_lt (x : ℚ) (n : ℤ) (h1 : (n : ℚ) ≤ 100 * x)
    (h2 : 100 * x - n < 1/2) : round2 x = n / 100 := by
  unfold round2
  rw [pyRound_of_lt (100 * x) n h1 h2]

theorem round2_of_gt (x : ℚ) (n : ℤ) (h1 : 100 * x - n > 1/2)
    (h2 : 100 * x < (n : ℚ) + 1) : round2 x = ((n : ℚ) + 1) / 100 := by
  unfold round2
  rw [pyRound_of_gt (100 * x) n h1 h2]
  push_cast
  ring

theorem countP_zero_of_any_false {α : Type} (p : α → Bool) (l : List α)
    (h : l.any p = false) : l.countP p = 0 := by
  rw [List.countP_eq_zero]
  intro a ha
  exact (List.any_eq_false.mp h) a ha

theorem countP_updateFirstBy {α : Type} (p q : α → Bool) (f : α → α)
    (h : ∀ a, q (f a) = q a) (l : List α) :
    (updateFirstBy p f l).countP q = l.countP q := by
  induction l with
  | nil => rfl
  | cons a l ih =>
    by_cases hp : p a = true
    · simp [updateFirstBy, hp, List.countP_cons, h]
    · simp only [Bool.not_eq_true] at hp
      simp [updateFirstBy, hp, List.countP_cons, ih]

theorem any_updateFirstBy {α : Type} (p : α → Bool) (f : α → α)
    (h : ∀ a, p (f a) = p a) (l : List α) :
    (updateFirstBy p f l).any p = l.any p := by
  induction l with
  | nil => rfl
  | cons a l ih =>
    by_cases hp : p a = true
    · simp [updateFirstBy, hp, List.any_cons, h]
    · simp only [Bool.not_eq_true] at hp
      simp [updateFirstBy, hp, List.any_cons, ih]

theorem updateFirstBy_idem {α : Type} (p : α → Bool) (f : α → α)
    (hp : ∀ a, p (f a) = p a) (hf : ∀ a, f (f a) = f a) (l : List α) :
    updateFirstBy p f (updateFirstBy p f l) = updateFirstBy p f l := by
  induction l with
  | nil => rfl
  | cons a l ih =>
    by_cases hpa : p a = true
    · simp [updateFirstBy, hpa, hp, hf]
    · simp only [Bool.not_eq_true] at hpa
      simp [updateFirstBy, hpa, ih]

theorem updateFirstBy_append_left {α : Type} (p : α → Bool) (f : α → α)
    (l1 l2 : List α) (h : l1.any p = false) :
    updateFirstBy p f (l1 ++ l2) = l1 ++ updateFirstBy p f l2 := by
  induction l1 with
  | nil => simp
  | cons a l ih =>
    rw [List.any_cons, Bool.or_eq_false_iff] at h
    simp [updateFirstBy, h.1, ih h.2]

theorem updateFirstBy_spec {α : Type} (p : α → Bool) (f : α → α) (l : List α)
    (h : l.any p = true) :
    ∃ l1 a l2, l = l1 ++ a :: l2 ∧ p a = true ∧ l1.any p = false ∧
      updateFirstBy p f l = l1 ++ f a :: l2 ∧ removeFirstBy p l = l1 ++ l2 := by
  induction l with
  | nil => simp at h
  | cons b l ih =>
    by_cases hb : p b = true
    · exact ⟨[], b, l, rfl, hb, by simp, by simp [updateFirstBy, hb],
        by simp [removeFirstBy, hb]⟩
    · simp only [Bool.not_eq_true] at hb
      have h' : l.any p = true := by simpa [List.any_cons, hb] using h
      obtain ⟨l1, a, l2, he, hpa, hn, hu, hr⟩ := ih h'
      refine ⟨b :: l1, a, l2, by simp [he], hpa, ?_, ?_, ?_⟩
      · simp [List.any_cons, hb, hn]
      · simp [updateFirstBy, hb, hu]
      · simp [removeFirstBy, hb, hr]

theorem dropWhile_append_stop {α : Type} (p : α → Bool) (c : α) (hc : p c = false)
    (l r : List α) : ∃ t, List.dropWhile p (l ++ c :: r) = t ++ c :: r := by
  induction l with
  | nil => exact ⟨[], by simp [List.dropWhile_cons, hc]⟩
  | cons a l ih =>
    by_cases ha : p a = true
    · obtain ⟨t, ht⟩ := ih
      exact ⟨t, by simp [List.dropWhile_cons, ha, ht]⟩
    · simp only [Bool.not_eq_true] at ha
      exact ⟨a :: l, by simp [List.dropWhile_cons, ha]⟩

theorem stripChars_keeps_head (c0 : Char) (m rest : List Char)
    (hc0 : c0.isWhitespace = false) :
    ∃ t, stripChars ((c0 :: m) ++ '.' :: rest) = (c0 :: m) ++ '.' :: t := by
  unfold stripChars
  have h1 : ((c0 :: m) ++ '.' :: rest).dropWhile Char.isWhitespace
      = (c0 :: m) ++ '.' :: rest := by
    simp [List.dropWhile_cons, hc0]
  rw [h1]
  have h2 : ((c0 :: m) ++ '.' :: rest).reverse
      = rest.reverse ++ '.' :: (c0 :: m).reverse := by
    simp [List.reverse_append, List.reverse_cons, List.append_assoc]
  rw [h2]
  obtain ⟨t, ht⟩ := dropWhile_append_stop Char.isWhitespace '.' (by decide)
    rest.reverse (c0 :: m).reverse
  rw [ht]
  exact ⟨t.reverse, by simp⟩

theorem isPrefixOf_append_self (l t : List Char) : l.isPrefixOf (l ++ t) = true := by
  rw [List.isPrefixOf_iff_prefix]
  exact List.prefix_append l t

theorem listContainsSub_of_append (needle t : List Char) :
    listContainsSub needle (needle ++ t) = true := by
  cases needle with
  | nil =>
    cases t with
    | nil => rfl
    | cons c t => simp [listContainsSub, List.isPrefixOf]
  | cons c n =>
    simp only [List.cons_append, listContainsSub, Bool.or_eq_true]
    exact Or.inl (isPrefixOf_append_self (c :: n) t)

theorem marker_in_mkNote (d i : String) :
    strContainsSub (mkNote d i) (noteMarker d) = true := by
  have hdata : (noteMarker d ++ ". " ++ i).data
      = ('D' :: ("ropout refund for session ".data ++ d.data)) ++ '.' :: (' ' :: i.data) := by
    show ((noteMarker d).data ++ ". ".data) ++ i.data = _
    rw [List.append_assoc]
    rfl
  unfold strContainsSub mkNote pyStrip
  rw [show (String.mk (stripChars (noteMarker d ++ ". " ++ i).data)).data
      = stripChars (noteMarker d ++ ". " ++ i).data from rfl]
  rw [hdata]
  obtain ⟨t, ht⟩ := stripChars_keeps_head 'D'
    ("ropout refund for session ".data ++ d.data) (' ' :: i.data) (by decide)
  rw [ht]
  have hm : (noteMarker d).data = 'D' :: ("ropout refund for session ".data ++ d.data) := rfl
  rw [hm]
  rw [show ('D' :: ("ropout refund for session ".data ++ d.data)) ++ '.' :: t
      = ('D' :: ("ropout refund for session ".data ++ d.data)) ++ ('.' :: t) from rfl]
  exact listContainsSub_of_append _ _

theorem total_charges_foldl (sessions : List Session) (atts : List Attendance)
    (l : List Attendance) (c : ℚ) :
    l.foldl (fun total a =>
      if a.category == "kid" then total + 11
      else
        match findSession sessions a.session_id with
        | none => total
        | some s =>
          let attendee_count := s.get_attendee_count atts
          if attendee_count > 0 then
            total + (s.get_total_cost / attendee_count + s.birdie_cost)
          else total) c
    = c + (l.map (rawCharge sessions atts)).sum := by
  induction l generalizing c with
  | nil => simp
  | cons a l ih =>
    rw [List.foldl_cons, List.map_cons, List.sum_cons, ih]
    have hstep : (if a.category == "kid" then c + 11
        else
          match findSession sessions a.session_id with
          | none => c
          | some s =>
            let attendee_count := s.get_attendee_count atts
            if attendee_count > 0 then
              c + (s.get_total_cost / attendee_count + s.birdie_cost)
            else c)
        = c + rawCharge sessions atts a := by
      unfold rawCharge
      by_cases hk : (a.category == "kid") = true
      · simp [hk]
      · simp only [Bool.not_eq_true] at hk
        simp only [hk, Bool.false_eq_true, if_false]
        cases hf : findSession sessions a.session_id with
        | none => simp
        | some s =>
          by_cases hn : s.get_attendee_count atts > 0
          · simp [hn]
          · simp [hn]
    rw [hstep, add_assoc]

theorem get_attendee_count_setFlag (s : Session) (b : Bool) (atts : List Attendance) :
    Session.get_attendee_count { s with voting_frozen := b } atts
      = s.get_attendee_count atts := rfl

theorem get_cost_per_player_setFlag (s : Session) (b : Bool) (atts : List Attendance) :
    Session.get_cost_per_player { s with voting_frozen := b } atts
      = s.get_cost_per_player atts := rfl

theorem findSession_setFrozen (sessions : List Session) (sid : Nat) (b : Bool)
    (sid2 : Nat) :
    findSession (setFrozen sessions sid b) sid2
      = (findSession sessions sid2).map
          (fun s => if s.id == sid then { s with voting_frozen := b } else s) := by
  unfold findSession setFrozen
  induction sessions with
  | nil => rfl
  | cons s ss ih =>
    have hid : (if s.id == sid then { s with voting_frozen := b } else s).id = s.id := by
      by_cases h : (s.id == sid) = true
      · simp [h]
      · simp only [Bool.not_eq_true] at h
        simp [h]
    simp only [List.map_cons, List.find?]
    rw [hid]
    cases hsd : (s.id == sid2) with
    | true => simp
    | false => simpa using ih

theorem pairMatches_setStatus (pid sid : Nat) (st : String) (a : Attendance) :
    pairMatches pid sid { a with status := st } = pairMatches pid sid a := rfl

theorem pairMatches_self (pid sid : Nat) (st cat : String) :
    pairMatches pid sid ⟨pid, sid, st, cat⟩ = true := by
  simp [pairMatches]

theorem upsert_countPair (atts : List Attendance) (pid sid : Nat)
    (st cat : String) (h : attUnique atts) :
    countPair (upsert atts pid sid st cat) pid sid = 1 := by
  unfold upsert countPair
  by_cases ha : atts.any (pairMatches pid sid) = true
  · rw [if_pos ha, countP_updateFirstBy (pairMatches pid sid) (pairMatches pid sid)
      (fun a => { a with status := st }) (pairMatches_setStatus pid sid st) atts]
    have h1 : 0 < atts.countP (pairMatches pid sid) := by
      rw [List.countP_pos_iff]
      exact List.any_eq_true.mp ha
    have h2 := h pid sid
    unfold countPair at h2
    omega
  · simp only [Bool.not_eq_true] at ha
    rw [if_neg (by simp [ha]), List.countP_append,
      countP_zero_of_any_false _ _ ha]
    simp [List.countP_cons, pairMatches_self]

theorem upsert_attUnique (atts : List Attendance) (pid sid : Nat)
    (st cat : String) (h : attUnique atts) :
    attUnique (upsert atts pid sid st cat) := by
  intro p q
  unfold upsert countPair
  by_cases ha : atts.any (pairMatches pid sid) = true
  · rw [if_pos ha, countP_updateFirstBy (pairMatches pid sid) (pairMatches p q)
      (fun a => { a with status := st }) (pairMatches_setStatus p q st) atts]
    exact h p q
  · simp only [Bool.not_eq_true] at ha
    rw [if_neg (by simp [ha]), List.countP_append]
    by_cases hm : pairMatches p q ⟨pid, sid, st, cat⟩ = true
    · have hpq : pid = p ∧ sid = q := by
        simpa [pairMatches] using hm
      obtain ⟨rfl, rfl⟩ := hpq
      rw [countP_zero_of_any_false _ _ ha]
      simp [List.countP_cons, hm]
    · simp only [Bool.not_eq_true] at hm
      have h2 := h p q
      unfold countPair at h2
      simp [List.countP_cons, hm]
      omega

theorem upsert_idem (atts : List Attendance) (pid sid : Nat) (st cat : String) :
    upsert (upsert atts pid sid st cat) pid sid st cat
      = upsert atts pid sid st cat := by
  by_cases ha : atts.any (pairMatches pid sid) = true
  · have h1 : upsert atts pid sid st cat
        = updateFirstBy (pairMatches pid sid) (fun a => { a with status := st }) atts := by
      simp [upsert, ha]
    rw [h1]
    have hany : (updateFirstBy (pairMatches pid sid)
        (fun a => { a with status := st }) atts).any (pairMatches pid sid) = true := by
      rw [any_updateFirstBy (pairMatches pid sid) (fun a => { a with status := st })
        (pairMatches_setStatus pid sid st) atts]
      exact ha
    have h2 : upsert (updateFirstBy (pairMatches pid sid)
          (fun a => { a with status := st }) atts) pid sid st cat
        = updateFirstBy (pairMatches pid sid) (fun a => { a with status := st })
            (updateFirstBy (pairMatches pid sid) (fun a => { a with status := st }) atts) := by
      simp [upsert, hany]
    rw [h2]
    exact updateFirstBy_idem (pairMatches pid sid) (fun a => { a with status := st })
      (pairMatches_setStatus pid sid st) (fun a => rfl) atts
  · simp only [Bool.not_eq_true] at ha
    have h1 : upsert atts pid sid st cat = atts ++ [(⟨pid, sid, st, cat⟩ : Attendance)] := by
      simp [upsert, ha]
    rw [h1]
    have hany : (atts ++ [(⟨pid, sid, st, cat⟩ : Attendance)]).any
        (pairMatches pid sid) = true := by
      simp [List.any_append, ha, pairMatches_self]
    have h2 : upsert (atts ++ [(⟨pid, sid, st, cat⟩ : Attendance)]) pid sid st cat
        = updateFirstBy (pairMatches pid sid) (fun a => { a with status := st })
            (atts ++ [(⟨pid, sid, st, cat⟩ : Attendance)]) := by
      simp [upsert, hany]
    rw [h2, updateFirstBy_append_left _ _ _ _ ha]
    simp [updateFirstBy, pairMatches_self]

theorem findSession_some_id (sessions : List Session) (sid : Nat) (s : Session)
    (h : findSession sessions sid = some s) : (s.id == sid) = true := by
  unfold findSession at h
  induction sessions with
  | nil => simp at h
  | cons t ts ih =>
    rw [List.find?_cons] at h
    cases ht : (t.id == sid) with
    | true =>
      rw [ht] at h
      dsimp only at h
      injection h with h2
      rw [← h2]
      exact ht
    | false =>
      rw [ht] at h
      dsimp only at h
      exact ih h

/-! ## Claim theorems -/

/-- C2: for every session, total_cost is the sum of cost over the
session's courts, attendee_count is the number of its attendance rows
with status YES, cost_per_player is 0 when attendee_count = 0 and
otherwise round(total_cost / attendee_count + birdie_cost, 2); and for a
session with zero courts and at least one YES attendee, cost_per_player
degenerates to the birdie cost alone (for a 2-decimal birdie cost). -/
theorem claim_C2 :
    (∀ s : Session, s.get_total_cost = (s.courts.map Court.cost).sum)
    ∧ (∀ (s : Session) (atts : List Attendance),
        s.get_attendee_count atts
          = atts.countP (fun a => a.session_id == s.id && a.status == "YES"))
    ∧ (∀ (s : Session) (atts : List Attendance),
        s.get_attendee_count atts = 0 → s.get_cost_per_player atts = 0)
    ∧ (∀ (s : Session) (atts : List Attendance),
        s.get_attendee_count atts ≠ 0 →
        s.get_cost_per_player atts
          = round2 (s.get_total_cost / (s.get_attendee_count atts : ℚ) + s.birdie_cost))
    ∧ (∀ (s : Session) (atts : List Attendance),
        s.courts = [] → s.get_attendee_count atts ≠ 0 →
        round2 s.birdie_cost = s.birdie_cost →
        s.get_cost_per_player atts = s.birdie_cost) := by
  refine ⟨fun s => rfl, ?_, ?_, ?_, ?_⟩
  · intro s atts
    unfold Session.get_attendee_count Session.attendances
    rw [List.filter_filter, List.countP_eq_length_filter]
    congr 1
    apply List.filter_congr
    intro a _
    exact Bool.and_comm _ _
  · intro s atts h
    simp [Session.get_cost_per_player, h]
  · intro s atts h
    simp [Session.get_cost_per_player, h]
  · intro s atts hc h hb
    have ht : s.get_total_cost = 0 := by
      simp [Session.get_total_cost, hc]
    simp only [Session.get_cost_per_player, ht, h, if_false]
    rw [zero_div, zero_add, hb]

/-- C3: the suggested dropout refund is the full cost_per_player when
fillin_count >= dropout_count and fillin_count > 0; otherwise only the
(2-decimal-rounded) court-cost share total_cost / attendee_count,
excluding the birdie cost, and 0 when attendee_count = 0 in that
partial-refund branch. -/
theorem claim_C3 :
    (∀ (s : Session) (atts : List Attendance),
        s.get_fillin_count atts ≥ s.get_dropout_count atts →
        s.get_fillin_count atts > 0 →
        s.calculate_suggested_refund atts = s.get_cost_per_player atts)
    ∧ (∀ (s : Session) (atts : List Attendance),
        ¬ (s.get_fillin_count atts ≥ s.get_dropout_count atts
            ∧ s.get_fillin_count atts > 0) →
        s.get_attendee_count atts > 0 →
        s.calculate_suggested_refund atts
          = round2 (s.get_total_cost / (s.get_attendee_count atts : ℚ)))
    ∧ (∀ (s : Session) (atts : List Attendance),
        ¬ (s.get_fillin_count atts ≥ s.get_dropout_count atts
            ∧ s.get_fillin_count atts > 0) →
        s.get_attendee_count atts = 0 →
        s.calculate_suggested_refund atts = 0) := by
  refine ⟨?_, ?_, ?_⟩
  · intro s atts h1 h2
    simp only [Session.calculate_suggested_refund]
    rw [if_pos ⟨h1, h2⟩]
  · intro s atts h hn
    simp only [Session.calculate_suggested_refund]
    rw [if_neg h, if_pos hn]
  · intro s atts h hz
    simp only [Session.calculate_suggested_refund]
    rw [if_neg h, if_neg (by omega)]

/-- C1 (amended): total_charges(player) rounds ONCE, at the end, the sum
over the player's YES attendances of the unrounded per-session charge
(flat 11 for a kid attendance, otherwise
total_cost / attendee_count + birdie_cost, with a zero-attendee session
contributing 0); total_payments(player) is round(sum of amounts, 2); and
balance(player) = round(total_charges - total_payments, 2). -/
theorem claim_C1_amended :
    ∀ (sessions : List Session) (atts : List Attendance) (pays : List Payment)
      (player_id : Nat),
    Player.get_total_charges sessions atts player_id
      = round2 (((atts.filter (fun a => a.player_id == player_id
          && a.status == "YES")).map (rawCharge sessions atts)).sum)
    ∧ Player.get_total_payments pays player_id
      = round2 (((pays.filter (fun p => p.player_id == player_id)).map
          Payment.amount).sum)
    ∧ Player.get_balance sessions atts pays player_id
      = round2 (Player.get_total_charges sessions atts player_id
          - Player.get_total_payments pays player_id) := by
  intro sessions atts pays player_id
  refine ⟨?_, rfl, rfl⟩
  unfold Player.get_total_charges
  rw [total_charges_foldl, zero_add]

/-- C4 (counterexample): the claim that no refund-workflow operation moves
a cancelled DropoutRefund out of the cancelled state is false: the
process action applied to the cancelled refund c4Refund sets its status
to processed. -/
theorem claim_C4_counterexample :
    c4Refund.status = "cancelled"
    ∧ (update_dropout_refund c4Refund "Jan 01, 2025" [] .process).refund.status
        = "processed"
    ∧ (update_dropout_refund c4Refund "Jan 01, 2025" [] .process).refund.status
        ≠ "cancelled" := by
  refine ⟨rfl, rfl, ?_⟩
  decide

/-- C4 (amended): for a DropoutRefund whose status is cancelled, the
update and cancel actions of the refund-update workflow leave the status
cancelled, but the process action (which has no status guard) moves it to
processed. -/
theorem claim_C4_amended :
    ∀ (r : DropoutRefund) (dateStr : String) (pays : List Payment)
      (amount : Option ℚ) (instructions : String),
    r.status = "cancelled" →
    (update_dropout_refund r dateStr pays
        (.update amount instructions)).refund.status = "cancelled"
    ∧ (update_dropout_refund r dateStr pays .cancel).refund.status = "cancelled"
    ∧ (update_dropout_refund r dateStr pays .process).refund.status
        = "processed" := by
  intro r dateStr pays amount instructions h
  refine ⟨?_, ?_, rfl⟩
  · simp [update_dropout_refund, h]
  · simp [update_dropout_refund, h]

/-- C10: the process action of the refund workflow has no precondition on
the refund's current status: from any state it sets status processed,
sets the processed timestamp, and appends one new negative payment of
minus refund_amount; applying process twice therefore leaves two such
payment rows. -/
theorem claim_C10 :
    ∀ (r : DropoutRefund) (dateStr : String) (pays : List Payment),
    (update_dropout_refund r dateStr pays .process).refund.status = "processed"
    ∧ (update_dropout_refund r dateStr pays .process).refund.processed_date_set = true
    ∧ (update_dropout_refund r dateStr pays .process).payments
        = pays ++ [mkRefundPayment r dateStr]
    ∧ (mkRefundPayment r dateStr).amount = -r.refund_amount
    ∧ (mkRefundPayment r dateStr).player_id = r.player_id
    ∧ (update_dropout_refund
        (update_dropout_refund r dateStr pays .process).refund dateStr
        (update_dropout_refund r dateStr pays .process).payments
        .process).refund.status = "processed"
    ∧ (update_dropout_refund
        (update_dropout_refund r dateStr pays .process).refund dateStr
        (update_dropout_refund r dateStr pays .process).payments
        .process).payments
        = pays ++ [mkRefundPayment r dateStr, mkRefundPayment r dateStr] := by
  intro r dateStr pays
  refine ⟨rfl, rfl, rfl, rfl, rfl, rfl, ?_⟩
  show (pays ++ [mkRefundPayment r dateStr]) ++ [mkRefundPayment r dateStr]
      = pays ++ [mkRefundPayment r dateStr, mkRefundPayment r dateStr]
  rw [List.append_assoc]
  rfl

/-- C5: processing a pending refund sets the processed timestamp and
creates exactly one new negative payment for the player carrying the
session marker in its notes; editing the amount of a processed refund
rewrites the first matching payment in place (same number of payment
rows, amount set to minus the new amount) instead of creating a second
payment; cancelling a processed refund removes the first matching
payment; and when no matching payment exists the cancellation still
completes (status cancelled, store unchanged) while flashing a warning. -/
theorem claim_C5 :
    (∀ (r : DropoutRefund) (dateStr : String) (pays : List Payment),
      r.status = "pending" →
      (update_dropout_refund r dateStr pays .process).refund.status = "processed"
      ∧ (update_dropout_refund r dateStr pays .process).refund.processed_date_set
          = true
      ∧ (update_dropout_refund r dateStr pays .process).payments
          = pays ++ [mkRefundPayment r dateStr]
      ∧ (mkRefundPayment r dateStr).player_id = r.player_id
      ∧ (mkRefundPayment r dateStr).amount = -r.refund_amount
      ∧ isRefundPaymentFor r.player_id dateStr (mkRefundPayment r dateStr) = true)
    ∧ (∀ (r : DropoutRefund) (dateStr : String) (pays : List Payment)
        (amt : ℚ) (instr : String),
      r.status = "processed" →
      pays.any (isRefundPaymentFor r.player_id dateStr) = true →
      (update_dropout_refund r dateStr pays
          (.update (some amt) instr)).refund.refund_amount = amt
      ∧ (update_dropout_refund r dateStr pays
          (.update (some amt) instr)).payments.length = pays.length
      ∧ ∃ l1 p l2, pays = l1 ++ p :: l2
          ∧ isRefundPaymentFor r.player_id dateStr p = true
          ∧ (update_dropout_refund r dateStr pays (.update (some amt) instr)).payments
              = l1 ++ { p with
                        amount := -amt,
                        notes := mkNote dateStr (pyStrip instr) } :: l2)
    ∧ (∀ (r : DropoutRefund) (dateStr : String) (pays : List Payment),
      r.status = "processed" →
      pays.any (isRefundPaymentFor r.player_id dateStr) = true →
      (update_dropout_refund r dateStr pays .cancel).refund.status = "cancelled"
      ∧ (update_dropout_refund r dateStr pays .cancel).warning = false
      ∧ ∃ l1 p l2, pays = l1 ++ p :: l2
          ∧ isRefundPaymentFor r.player_id dateStr p = true
          ∧ (update_dropout_refund r dateStr pays .cancel).payments = l1 ++ l2)
    ∧ (∀ (r : DropoutRefund) (dateStr : String) (pays : List Payment),
      r.status = "processed" →
      pays.any (isRefundPaymentFor r.player_id dateStr) = false →
      (update_dropout_refund r dateStr pays .cancel).refund.status = "cancelled"
      ∧ (update_dropout_refund r dateStr pays .cancel).payments = pays
      ∧ (update_dropout_refund r dateStr pays .cancel).warning = true) := by
  refine ⟨?_, ?_, ?_, ?_⟩
  · intro r dateStr pays _
    refine ⟨rfl, rfl, rfl, rfl, rfl, ?_⟩
    simp [isRefundPaymentFor, mkRefundPayment, marker_in_mkNote]
  · intro r dateStr pays amt instr hst hany
    have hpay : (update_dropout_refund r dateStr pays
        (.update (some amt) instr)).payments
        = updateFirstBy (isRefundPaymentFor r.player_id dateStr)
            (fun p => { p with
                        amount := -amt,
                        notes := mkNote dateStr (pyStrip instr) }) pays := by
      simp [update_dropout_refund, hst, hany]
    have hamt : (update_dropout_refund r dateStr pays
        (.update (some amt) instr)).refund.refund_amount = amt := by
      simp [update_dropout_refund, hst, hany]
    obtain ⟨l1, p, l2, he, hp, _, hu, _⟩ :=
      updateFirstBy_spec (isRefundPaymentFor r.player_id dateStr)
        (fun p => { p with
                    amount := -amt,
                    notes := mkNote dateStr (pyStrip instr) }) pays hany
    refine ⟨hamt, ?_, l1, p, l2, he, hp, ?_⟩
    · rw [hpay, hu, he]
      simp
    · rw [hpay, hu]
  · intro r dateStr pays hst hany
    have hres : (update_dropout_refund r dateStr pays .cancel).payments
        = removeFirstBy (isRefundPaymentFor r.player_id dateStr) pays := by
      simp [update_dropout_refund, hst, hany]
    have hst2 : (update_dropout_refund r dateStr pays .cancel).refund.status
        = "cancelled" := by
      simp [update_dropout_refund, hst, hany]
    have hw : (update_dropout_refund r dateStr pays .cancel).warning = false := by
      simp [update_dropout_refund, hst, hany]
    obtain ⟨l1, p, l2, he, hp, _, _, hr⟩ :=
      updateFirstBy_spec (isRefundPaymentFor r.player_id dateStr) id pays hany
    exact ⟨hst2, hw, l1, p, l2, he, hp, by rw [hres, hr]⟩
  · intro r dateStr pays hst hany
    refine ⟨?_, ?_, ?_⟩
    · simp [update_dropout_refund, hst, hany]
    · simp [update_dropout_refund, hst, hany]
    · simp [update_dropout_refund, hst, hany]

/-- C7: starting from a store satisfying the at-most-one-row-per
(player_id, session_id) invariant, performing the attendance upsert twice
with the same arguments equals performing it once, leaves exactly one
attendance row for that pair, preserves the invariant, and leaves
cost_per_player of every session unchanged between the first and second
call; and both attendance endpoints preserve the invariant. -/
theorem claim_C7 :
    (∀ (atts : List Attendance) (pid sid : Nat) (status category : String),
      attUnique atts →
      upsert (upsert atts pid sid status category) pid sid status category
          = upsert atts pid sid status category
      ∧ countPair (upsert atts pid sid status category) pid sid = 1
      ∧ countPair (upsert (upsert atts pid sid status category)
          pid sid status category) pid sid = 1
      ∧ attUnique (upsert atts pid sid status category)
      ∧ ∀ s : Session,
          s.get_cost_per_player
              (upsert (upsert atts pid sid status category) pid sid status category)
            = s.get_cost_per_player (upsert atts pid sid status category))
    ∧ (∀ (sessions : List Session) (atts : List Attendance)
        (current_player_id : Nat) (managed : List Nat) (session_id : Nat)
        (status : String) (target_player_id : Nat),
      attUnique atts →
      attUnique (update_player_attendance sessions atts current_player_id
          managed session_id status target_player_id).1)
    ∧ (∀ (sessions : List Session) (players : List Player)
        (atts : List Attendance) (player_id session_id : Nat) (status : String),
      attUnique atts →
      attUnique (update_attendance sessions players atts
          player_id session_id status).1) := by
  refine ⟨?_, ?_, ?_⟩
  · intro atts pid sid status category h
    refine ⟨upsert_idem atts pid sid status category, ?_, ?_, ?_, ?_⟩
    · exact upsert_countPair atts pid sid status category h
    · rw [upsert_idem atts pid sid status category]
      exact upsert_countPair atts pid sid status category h
    · exact upsert_attUnique atts pid sid status category h
    · intro s
      rw [upsert_idem atts pid sid status category]
  · intro sessions atts current_player_id managed session_id status target_player_id h
    unfold update_player_attendance
    repeat' (first | split | dsimp only)
    all_goals first | exact h | exact upsert_attUnique _ _ _ _ _ h
  · intro sessions players atts player_id session_id status h
    unfold update_attendance
    repeat' (first | split | dsimp only)
    all_goals first | exact h | exact upsert_attUnique _ _ _ _ _ h

/-- C8: both attendance endpoints validate the status against the
recognized enumerated values before any mutation (self-service callers
may only set YES, NO or TENTATIVE; the admin endpoint also accepts
DROPOUT and FILLIN); an invalid status is rejected with an error response
and no store change; and on success each endpoint returns the freshly
recomputed attendee_count and cost_per_player of the affected session,
computed on the updated store. -/
theorem claim_C8 :
    (∀ (sessions : List Session) (atts : List Attendance)
        (current_player_id : Nat) (managed : List Nat) (session_id : Nat)
        (status : String) (target_player_id : Nat),
      status ∉ (["YES", "NO", "TENTATIVE"] : List String) →
      (update_player_attendance sessions atts current_player_id managed
          session_id status target_player_id).1 = atts
      ∧ ∃ msg code, (update_player_attendance sessions atts current_player_id
          managed session_id status target_player_id).2 = .error msg code)
    ∧ (∀ (sessions : List Session) (players : List Player)
        (atts : List Attendance) (player_id session_id : Nat) (status : String),
      status ∉ (["YES", "NO", "TENTATIVE", "DROPOUT", "FILLIN"] : List String) →
      (update_attendance sessions players atts player_id session_id status).1 = atts
      ∧ (update_attendance sessions players atts player_id session_id status).2
          = .error "Invalid status" 400)
    ∧ (∀ (sessions : List Session) (atts : List Attendance)
        (current_player_id : Nat) (managed : List Nat) (session_id : Nat)
        (status : String) (target_player_id : Nat) (s : Session),
      findSession sessions session_id = some s →
      s.voting_frozen = false →
      status ∈ (["YES", "NO", "TENTATIVE"] : List String) →
      (target_player_id = current_player_id ∨ target_player_id ∈ managed) →
      update_player_attendance sessions atts current_player_id managed
          session_id status target_player_id
        = (upsert atts target_player_id session_id status "regular",
           .ok (s.get_attendee_count
                  (upsert atts target_player_id session_id status "regular"))
              (s.get_cost_per_player
                  (upsert atts target_player_id session_id status "regular"))))
    ∧ (∀ (sessions : List Session) (players : List Player)
        (atts : List Attendance) (player_id session_id : Nat) (status : String)
        (s : Session),
      findSession sessions session_id = some s →
      status ∈ (["YES", "NO", "TENTATIVE", "DROPOUT", "FILLIN"] : List String) →
      update_attendance sessions players atts player_id session_id status
        = (upsert atts player_id session_id status (categoryOf players player_id),
           .ok (s.get_attendee_count (upsert atts player_id session_id status
                  (categoryOf players player_id)))
              (s.get_cost_per_player (upsert atts player_id session_id status
                  (categoryOf players player_id))))) := by
  refine ⟨?_, ?_, ?_, ?_⟩
  · intro sessions atts current_player_id managed session_id status target_player_id hst
    unfold update_player_attendance
    dsimp only
    split
    · exact ⟨rfl, "Voting is frozen for this session", 403, rfl⟩
    · exact ⟨rfl, "Invalid status", 400, rfl⟩
  · intro sessions players atts player_id session_id status hst
    unfold update_attendance
    rw [if_pos hst]
    exact ⟨rfl, rfl⟩
  · intro sessions atts current_player_id managed session_id status
      target_player_id s hf hfz hin hauth
    have hna : ¬ (target_player_id ≠ current_player_id
        ∧ target_player_id ∉ managed) := by
      rcases hauth with h1 | h1 <;> simp [h1]
    unfold update_player_attendance
    rw [hf]
    dsimp only
    rw [hfz]
    rw [if_neg (by simp), if_neg (by simp [hin]), if_neg hna]
  · intro sessions players atts player_id session_id status s hf hin
    unfold update_attendance
    rw [if_neg (by simp [hin])]
    dsimp only
    rw [hf]

/-- C9: for a session whose voting_frozen flag is set, the self-service
attendance endpoint returns the frozen error and leaves the store
unchanged for every status and target player, while the admin attendance
endpoint ignores the flag entirely: its result is invariant under
flipping the flag, and on a frozen session with a valid status it still
performs the upsert. -/
theorem claim_C9 :
    (∀ (sessions : List Session) (atts : List Attendance)
        (current_player_id : Nat) (managed : List Nat) (session_id : Nat)
        (status : String) (target_player_id : Nat) (s : Session),
      findSession sessions session_id = some s →
      s.voting_frozen = true →
      update_player_attendance sessions atts current_player_id managed
          session_id status target_player_id
        = (atts, .error "Voting is frozen for this session" 403))
    ∧ (∀ (sessions : List Session) (players : List Player)
        (atts : List Attendance) (player_id session_id : Nat) (status : String)
        (b : Bool),
      update_attendance (setFrozen sessions session_id b) players atts
          player_id session_id status
        = update_attendance sessions players atts player_id session_id status)
    ∧ (∀ (sessions : List Session) (players : List Player)
        (atts : List Attendance) (player_id session_id : Nat) (status : String)
        (s : Session),
      findSession sessions session_id = some s →
      s.voting_frozen = true →
      status ∈ (["YES", "NO", "TENTATIVE", "DROPOUT", "FILLIN"] : List String) →
      (update_attendance sessions players atts player_id session_id status).1
        = upsert atts player_id session_id status (categoryOf players player_id)) := by
  refine ⟨?_, ?_, ?_⟩
  · intro sessions atts current_player_id managed session_id status
      target_player_id s hf hfz
    unfold update_player_attendance
    rw [hf]
    dsimp only
    rw [hfz, if_pos rfl]
  · intro sessions players atts player_id session_id status b
    unfold update_attendance
    by_cases hst : status ∉ (["YES", "NO", "TENTATIVE", "DROPOUT", "FILLIN"] : List String)
    · rw [if_pos hst, if_pos hst]
    · rw [if_neg hst, if_neg hst]
      dsimp only
      rw [findSession_setFrozen]
      cases hf : findSession sessions session_id with
      | none => rfl
      | some s =>
        have hsid : (s.id == session_id) = true := findSession_some_id sessions session_id s hf
        dsimp only [Option.map]
        rw [if_pos hsid]
        rfl
  · intro sessions players atts player_id session_id status s hf hfz hin
    unfold update_attendance
    rw [if_neg (by simp [hin])]
    dsimp only
    rw [hf]

/-- C1 (counterexample): with two sessions of court cost 10 and three YES
attendees each and zero birdie cost, player 1's total charges are
round(10/3 + 10/3, 2) = 6.67, while the claimed per-session-rounded sum
is round(10/3, 2) + round(10/3, 2) = 6.66: total_charges does not equal
the sum of the rounded per-session charges of claim C1. -/
theorem claim_C1_counterexample :
    Player.get_total_charges c1Sessions c1Atts 1 = 6.67
    ∧ spec_total_charges c1Sessions c1Atts 1 = 6.66
    ∧ Player.get_total_charges c1Sessions c1Atts 1
        ≠ spec_total_charges c1Sessions c1Atts 1 := by
  have hfil : c1Atts.filter (fun a => a.player_id == 1 && a.status == "YES")
      = [⟨1, 1, "YES", "regular"⟩, ⟨1, 2, "YES", "regular"⟩] := rfl
  have hr1 : rawCharge c1Sessions c1Atts ⟨1, 1, "YES", "regular"⟩ = 10 / 3 := by
    show Session.get_total_cost ⟨1, 0, false, [⟨10⟩]⟩ / ((3 : ℕ) : ℚ) + 0 = 10 / 3
    norm_num [Session.get_total_cost]
  have hr2 : rawCharge c1Sessions c1Atts ⟨1, 2, "YES", "regular"⟩ = 10 / 3 := by
    show Session.get_total_cost ⟨2, 0, false, [⟨10⟩]⟩ / ((3 : ℕ) : ℚ) + 0 = 10 / 3
    norm_num [Session.get_total_cost]
  have hchg : Player.get_total_charges c1Sessions c1Atts 1 = 6.67 := by
    unfold Player.get_total_charges
    rw [total_charges_foldl, zero_add, hfil]
    rw [List.map_cons, List.map_cons, List.map_nil, List.sum_cons, List.sum_cons,
      List.sum_nil, hr1, hr2]
    rw [show (10 / 3 + (10 / 3 + 0) : ℚ) = 20 / 3 from by norm_num]
    rw [round2_of_gt (20 / 3) 666 (by norm_num) (by norm_num)]
    norm_num
  have hcp1 : Session.get_cost_per_player ⟨1, 0, false, [⟨10⟩]⟩ c1Atts = 3.33 := by
    show round2 (Session.get_total_cost ⟨1, 0, false, [⟨10⟩]⟩ / ((3 : ℕ) : ℚ) + 0)
        = 3.33
    rw [show (Session.get_total_cost ⟨1, 0, false, [⟨10⟩]⟩ / ((3 : ℕ) : ℚ) + 0 : ℚ)
        = 10 / 3 from by norm_num [Session.get_total_cost]]
    rw [round2_of_lt (10 / 3) 333 (by norm_num) (by norm_num)]
    norm_num
  have hcp2 : Session.get_cost_per_player ⟨2, 0, false, [⟨10⟩]⟩ c1Atts = 3.33 := by
    show round2 (Session.get_total_cost ⟨2, 0, false, [⟨10⟩]⟩ / ((3 : ℕ) : ℚ) + 0)
        = 3.33
    rw [show (Session.get_total_cost ⟨2, 0, false, [⟨10⟩]⟩ / ((3 : ℕ) : ℚ) + 0 : ℚ)
        = 10 / 3 from by norm_num [Session.get_total_cost]]
    rw [round2_of_lt (10 / 3) 333 (by norm_num) (by norm_num)]
    norm_num
  have hsp1 : specChargeC1 c1Sessions c1Atts ⟨1, 1, "YES", "regular"⟩ = 3.33 := by
    show Session.get_cost_per_player ⟨1, 0, false, [⟨10⟩]⟩ c1Atts = 3.33
    exact hcp1
  have hsp2 : specChargeC1 c1Sessions c1Atts ⟨1, 2, "YES", "regular"⟩ = 3.33 := by
    show Session.get_cost_per_player ⟨2, 0, false, [⟨10⟩]⟩ c1Atts = 3.33
    exact hcp2
  have hspec : spec_total_charges c1Sessions c1Atts 1 = 6.66 := by
    unfold spec_total_charges
    rw [hfil, List.map_cons, List.map_cons, List.map_nil, List.sum_cons,
      List.sum_cons, List.sum_nil, hsp1, hsp2]
    norm_num
  refine ⟨hchg, hspec, ?_⟩
  rw [hchg, hspec]
  norm_num

theorem c6_regular_charge (pid : Nat)
    (hfil : c6Atts.filter (fun a => a.player_id == pid && a.status == "YES")
        = [⟨pid, 1, "YES", "regular"⟩]) :
    Player.get_total_charges [c6Session] c6Atts pid = 14.86 := by
  unfold Player.get_total_charges
  rw [total_charges_foldl, zero_add, hfil]
  rw [List.map_cons, List.map_nil, List.sum_cons, List.sum_nil]
  have hr : rawCharge [c6Session] c6Atts ⟨pid, 1, "YES", "regular"⟩
      = Session.get_total_cost c6Session / ((7 : ℕ) : ℚ) + c6Session.birdie_cost := rfl
  rw [hr]
  rw [show (Session.get_total_cost c6Session / ((7 : ℕ) : ℚ) + c6Session.birdie_cost
      + 0 : ℚ) = 90 / 7 + 2 from by norm_num [Session.get_total_cost, c6Session]]
  rw [round2_of_gt (90 / 7 + 2) 1485 (by norm_num) (by norm_num)]
  norm_num

/-- C6: in the scenario with two courts costing 50 and 40, birdie cost 2,
six attending regular players and one attending kid: total_cost is 90,
attendee_count is 7, cost_per_player is round(90/7 + 2, 2) = 14.86, the
kid's charge is 11.00, each regular player's charge is 14.86, and
total_collection is 6 * 14.86 + 11.00 = 100.16. -/
theorem claim_C6 :
    c6Session.get_total_cost = 90
    ∧ c6Session.get_attendee_count c6Atts = 7
    ∧ c6Session.get_cost_per_player c6Atts = round2 (90 / 7 + 2)
    ∧ round2 ((90 : ℚ) / 7 + 2) = 14.86
    ∧ c6Session.get_cost_per_player c6Atts = 14.86
    ∧ Player.get_total_charges [c6Session] c6Atts 7 = 11
    ∧ Player.get_total_charges [c6Session] c6Atts 1 = 14.86
    ∧ Player.get_total_charges [c6Session] c6Atts 2 = 14.86
    ∧ Player.get_total_charges [c6Session] c6Atts 3 = 14.86
    ∧ Player.get_total_charges [c6Session] c6Atts 4 = 14.86
    ∧ Player.get_total_charges [c6Session] c6Atts 5 = 14.86
    ∧ Player.get_total_charges [c6Session] c6Atts 6 = 14.86
    ∧ c6Session.get_total_collection c6Atts = 100.16
    ∧ 6 * (14.86 : ℚ) + 11 = 100.16 := by
  have ht : c6Session.get_total_cost = 90 := by
    norm_num [Session.get_total_cost, c6Session]
  have hround : round2 ((90 : ℚ) / 7 + 2) = 14.86 := by
    rw [round2_of_gt (90 / 7 + 2) 1485 (by norm_num) (by norm_num)]
    norm_num
  have hcpp0 : c6Session.get_cost_per_player c6Atts = round2 (90 / 7 + 2) := by
    show round2 (c6Session.get_total_cost / ((7 : ℕ) : ℚ) + c6Session.birdie_cost)
        = round2 (90 / 7 + 2)
    rw [show (c6Session.get_total_cost / ((7 : ℕ) : ℚ) + c6Session.birdie_cost : ℚ)
        = 90 / 7 + 2 from by norm_num [Session.get_total_cost, c6Session]]
  have hcpp : c6Session.get_cost_per_player c6Atts = 14.86 := by
    rw [hcpp0, hround]
  have hkid : Player.get_total_charges [c6Session] c6Atts 7 = 11 := by
    unfold Player.get_total_charges
    rw [total_charges_foldl, zero_add]
    rw [show c6Atts.filter (fun a => a.player_id == 7 && a.status == "YES")
        = [⟨7, 1, "YES", "kid"⟩] from rfl]
    rw [List.map_cons, List.map_nil, List.sum_cons, List.sum_nil]
    rw [show rawCharge [c6Session] c6Atts ⟨7, 1, "YES", "kid"⟩ = 11 from rfl]
    rw [show (11 + 0 : ℚ) = 11 from by norm_num]
    rw [round2_of_lt 11 1100 (by norm_num) (by norm_num)]
    norm_num
  have hcoll : c6Session.get_total_collection c6Atts = 100.16 := by
    unfold Session.get_total_collection
    rw [show (c6Session.attendances c6Atts).filter (fun a => a.status == "YES")
        = c6Atts from rfl]
    have hfold : c6Atts.foldl (fun total a =>
        if a.category == "kid" then total + 11
        else total + c6Session.get_cost_per_player c6Atts) 0
        = 0 + c6Session.get_cost_per_player c6Atts
          + c6Session.get_cost_per_player c6Atts
          + c6Session.get_cost_per_player c6Atts
          + c6Session.get_cost_per_player c6Atts
          + c6Session.get_cost_per_player c6Atts
          + c6Session.get_cost_per_player c6Atts + 11 := rfl
    rw [hfold, hcpp]
    rw [show (0 + (14.86 : ℚ) + 14.86 + 14.86 + 14.86 + 14.86 + 14.86 + 11 : ℚ)
        = 100.16 from by norm_num]
    rw [round2_of_lt 100.16 10016 (by norm_num) (by norm_num)]
    norm_num
  refine ⟨ht, rfl, hcpp0, hround, hcpp, hkid, ?_, ?_, ?_, ?_, ?_, ?_, hcoll,
    by norm_num⟩
  · exact c6_regular_charge 1 rfl
  · exact c6_regular_charge 2 rfl
  · exact c6_regular_charge 3 rfl
  · exact c6_regular_charge 4 rfl
  · exact c6_regular_charge 5 rfl
  · exact c6_regular_charge 6 rfl

/-! ## Witnesses -/

/-- Witness for C2 at concrete sessions: zero-attendee session, a session
with one YES attendee, and a zero-court session with one YES attendee. -/
theorem claim_C2_witness :
    wSessionOneCourt.get_total_cost = (wSessionOneCourt.courts.map Court.cost).sum
    ∧ wSessionNoCourts.get_attendee_count [] = 0
    ∧ wSessionNoCourts.get_cost_per_player [] = 0
    ∧ wSessionOneCourt.get_attendee_count wAtts4 ≠ 0
    ∧ wSessionOneCourt.get_cost_per_player wAtts4
        = round2 (wSessionOneCourt.get_total_cost
            / (wSessionOneCourt.get_attendee_count wAtts4 : ℚ)
            + wSessionOneCourt.birdie_cost)
    ∧ wSessionNoCourts.courts = []
    ∧ wSessionNoCourts.get_attendee_count wAtts3 ≠ 0
    ∧ round2 wSessionNoCourts.birdie_cost = wSessionNoCourts.birdie_cost
    ∧ wSessionNoCourts.get_cost_per_player wAtts3 = wSessionNoCourts.birdie_cost := by
  have hb : round2 wSessionNoCourts.birdie_cost = wSessionNoCourts.birdie_cost := by
    show round2 (2 : ℚ) = (2 : ℚ)
    rw [round2_of_lt 2 200 (by norm_num) (by norm_num)]
    norm_num
  exact ⟨claim_C2.1 wSessionOneCourt, rfl, claim_C2.2.2.1 wSessionNoCourts [] rfl,
    by decide, claim_C2.2.2.2.1 wSessionOneCourt wAtts4 (by decide), rfl,
    by decide, hb, claim_C2.2.2.2.2 wSessionNoCourts wAtts3 rfl (by decide) hb⟩

/-- Witness for C3 at concrete refund scenarios: full-refund branch,
partial-refund branch, and zero-attendee partial-refund branch. -/
theorem claim_C3_witness :
    wSessionR.get_fillin_count wAttsFull ≥ wSessionR.get_dropout_count wAttsFull
    ∧ wSessionR.get_fillin_count wAttsFull > 0
    ∧ wSessionR.calculate_suggested_refund wAttsFull
        = wSessionR.get_cost_per_player wAttsFull
    ∧ ¬ (wSessionR.get_fillin_count wAttsPart ≥ wSessionR.get_dropout_count wAttsPart
        ∧ wSessionR.get_fillin_count wAttsPart > 0)
    ∧ wSessionR.get_attendee_count wAttsPart > 0
    ∧ wSessionR.calculate_suggested_refund wAttsPart
        = round2 (wSessionR.get_total_cost
            / (wSessionR.get_attendee_count wAttsPart : ℚ))
    ∧ wSessionR.get_attendee_count wAttsEmpty = 0
    ∧ wSessionR.calculate_suggested_refund wAttsEmpty = 0 := by
  exact ⟨by decide, by decide,
    claim_C3.1 wSessionR wAttsFull (by decide) (by decide),
    by decide, by decide,
    claim_C3.2.1 wSessionR wAttsPart (by decide) (by decide),
    rfl, claim_C3.2.2 wSessionR wAttsEmpty (by decide) rfl⟩

/-- Witness for the amended C4 at the concrete cancelled refund
c4Refund: update and cancel keep it cancelled, process moves it to
processed. -/
theorem claim_C4_witness :
    c4Refund.status = "cancelled"
    ∧ (update_dropout_refund c4Refund "Jan 01, 2025" []
        (.update (some 3) "x")).refund.status = "cancelled"
    ∧ (update_dropout_refund c4Refund "Jan 01, 2025" [] .cancel).refund.status
        = "cancelled"
    ∧ (update_dropout_refund c4Refund "Jan 01, 2025" [] .process).refund.status
        = "processed" :=
  ⟨rfl,
   (claim_C4_amended c4Refund "Jan 01, 2025" [] (some 3) "x" rfl).1,
   (claim_C4_amended c4Refund "Jan 01, 2025" [] (some 3) "x" rfl).2.1,
   (claim_C4_amended c4Refund "Jan 01, 2025" [] (some 3) "x" rfl).2.2⟩

/-- Witness for C5 at concrete refunds: processing a pending refund
appends the one refund payment, editing a processed refund keeps the
payment count, cancelling a processed refund sets status cancelled, and
cancelling with no matching payment raises the warning. -/
theorem claim_C5_witness :
    wRefundPending.status = "pending"
    ∧ wRefundProcessed.status = "processed"
    ∧ wPays.any (isRefundPaymentFor wRefundProcessed.player_id wDate) = true
    ∧ ([] : List Payment).any (isRefundPaymentFor wRefundProcessed.player_id wDate)
        = false
    ∧ (update_dropout_refund wRefundPending wDate [] .process).payments
        = [] ++ [mkRefundPayment wRefundPending wDate]
    ∧ (update_dropout_refund wRefundProcessed wDate wPays
        (.update (some 5) "x")).payments.length = wPays.length
    ∧ (update_dropout_refund wRefundProcessed wDate wPays .cancel).refund.status
        = "cancelled"
    ∧ (update_dropout_refund wRefundProcessed wDate [] .cancel).warning = true := by
  refine ⟨rfl, rfl, by decide, rfl, ?_, ?_, ?_, ?_⟩
  · exact (claim_C5.1 wRefundPending wDate [] rfl).2.2.1
  · exact (claim_C5.2.1 wRefundProcessed wDate wPays 5 "x" rfl (by decide)).2.1
  · exact (claim_C5.2.2.1 wRefundProcessed wDate wPays rfl (by decide)).1
  · exact (claim_C5.2.2.2 wRefundProcessed wDate [] rfl rfl).2.2

/-- Witness for C7 starting from the empty attendance store. -/
theorem claim_C7_witness :
    attUnique ([] : List Attendance)
    ∧ upsert (upsert [] 1 2 "YES" "regular") 1 2 "YES" "regular"
        = upsert [] 1 2 "YES" "regular"
    ∧ countPair (upsert [] 1 2 "YES" "regular") 1 2 = 1
    ∧ attUnique (update_player_attendance [] [] 1 [] 2 "YES" 1).1
    ∧ attUnique (update_attendance [] [] [] 1 2 "YES").1 := by
  have hu : attUnique ([] : List Attendance) := by
    intro p q
    simp [countPair]
  refine ⟨hu, ?_, ?_, ?_, ?_⟩
  · exact (claim_C7.1 [] 1 2 "YES" "regular" hu).1
  · exact (claim_C7.1 [] 1 2 "YES" "regular" hu).2.1
  · exact claim_C7.2.1 [] [] 1 [] 2 "YES" 1 hu
  · exact claim_C7.2.2 [] [] [] 1 2 "YES" hu

/-- Witness for C8: a rejected invalid status on both endpoints and a
successful YES upsert on both endpoints against wSession8. -/
theorem claim_C8_witness :
    ("BAD" ∉ (["YES", "NO", "TENTATIVE"] : List String))
    ∧ ("BAD" ∉ (["YES", "NO", "TENTATIVE", "DROPOUT", "FILLIN"] : List String))
    ∧ (update_player_attendance [wSession8] [] 1 [] 2 "BAD" 1).1 = []
    ∧ (update_attendance [wSession8] [] [] 1 2 "BAD").2 = .error "Invalid status" 400
    ∧ findSession [wSession8] 2 = some wSession8
    ∧ wSession8.voting_frozen = false
    ∧ update_player_attendance [wSession8] [] 1 [] 2 "YES" 1
        = (upsert [] 1 2 "YES" "regular",
           .ok (wSession8.get_attendee_count (upsert [] 1 2 "YES" "regular"))
              (wSession8.get_cost_per_player (upsert [] 1 2 "YES" "regular")))
    ∧ update_attendance [wSession8] [] [] 1 2 "YES"
        = (upsert [] 1 2 "YES" (categoryOf [] 1),
           .ok (wSession8.get_attendee_count (upsert [] 1 2 "YES" (categoryOf [] 1)))
              (wSession8.get_cost_per_player
                (upsert [] 1 2 "YES" (categoryOf [] 1)))) := by
  refine ⟨by decide, by decide, ?_, ?_, rfl, rfl, ?_, ?_⟩
  · exact (claim_C8.1 [wSession8] [] 1 [] 2 "BAD" 1 (by decide)).1
  · exact (claim_C8.2.1 [wSession8] [] [] 1 2 "BAD" (by decide)).2
  · exact claim_C8.2.2.1 [wSession8] [] 1 [] 2 "YES" 1 wSession8 rfl rfl
      (by decide) (Or.inl rfl)
  · exact claim_C8.2.2.2 [wSession8] [] [] 1 2 "YES" wSession8 rfl (by decide)

/-- Witness for C9 against the frozen session wSession9: the self-service
endpoint errors and leaves the store unchanged, while the admin endpoint
ignores the flag and performs the upsert. -/
theorem claim_C9_witness :
    findSession [wSession9] 2 = some wSession9
    ∧ wSession9.voting_frozen = true
    ∧ update_player_attendance [wSession9] [] 1 [] 2 "YES" 1
        = ([], .error "Voting is frozen for this session" 403)
    ∧ update_attendance (setFrozen [wSession9] 2 false) [] [] 1 2 "YES"
        = update_attendance [wSession9] [] [] 1 2 "YES"
    ∧ ("YES" ∈ (["YES", "NO", "TENTATIVE", "DROPOUT", "FILLIN"] : List String))
    ∧ (update_attendance [wSession9] [] [] 1 2 "YES").1
        = upsert [] 1 2 "YES" (categoryOf [] 1) := by
  refine ⟨rfl, rfl, ?_, ?_, by decide, ?_⟩
  · exact claim_C9.1 [wSession9] [] 1 [] 2 "YES" 1 wSession9 rfl rfl
  · exact claim_C9.2.1 [wSession9] [] [] 1 2 "YES" false
  · exact claim_C9.2.2 [wSession9] [] [] 1 2 "YES" wSession9 rfl rfl (by decide)
